import Mathlib

/-!
Verification of the cPanel WordPress deployer orchestration
(`cpanel-wordpress-deployer.py`) against its design specification.

The embedding models the Python module shallowly:

* JSON values returned by the remote control-panel API are modelled by `JVal`;
  Python truthiness of such values by `truthy`, and `dict.get` by `pyGet`.
* The transport layer (`requests.post` / `raise_for_status` / `response.json()`)
  is abstracted by an oracle `Env.api : RemoteCall → TransportOutcome`: either a
  parsed JSON object body, a request-level exception, or a JSON-decode failure.
  (Per the spec's external-interface contract the 2xx response body is a JSON
  object; `requests.exceptions.JSONDecodeError` is a `RequestException` subclass
  and is caught by the same handler in `make_api_request`.)
* Local file reads (for the two upload helpers) are `Env.readFile`; the
  WordPress.org secret-key service is `Env.salts_service`; the stream of draws
  of `random.choice` is `Env.rand`.  Base64 of an opaque byte payload is a
  bijection that no property depends on, so the encoded content is modelled as
  the payload string itself.
* Every function returns, besides its value, the list of remote calls it made,
  so that "no further remote call is made" is a statement about the log.
* Python `x and y` short-circuits and `None.get(...)` raises `AttributeError`;
  both are modelled exactly (`py_and`, `py_get_status`), and the extended
  orchestrator therefore returns `Option ExtReport` — `none` models the
  (reachable) `AttributeError` escaping from the success aggregation.
-/

/-- A JSON value, as produced by `response.json()`. -/
inductive JVal where
  | null
  | bool (b : Bool)
  | num (n : Int)
  | str (s : String)
  | arr (xs : List JVal)
  | obj (kvs : List (String × JVal))

/-- Lookup of a key in a JSON object's key/value list (Python dict lookup). -/
def jGet : List (String × JVal) → String → Option JVal
  | [], _ => none
  | (k, v) :: rest, key => if k = key then some v else jGet rest key

/-- Python `d.get(key, default)` on a JSON value (non-objects never hold keys). -/
def pyGet (v : JVal) (key : String) (default : JVal) : JVal :=
  match v with
  | .obj kvs => (jGet kvs key).getD default
  | _ => default

/-- Python truthiness of a JSON value. -/
def truthy : JVal → Bool
  | .null => false
  | .bool b => b
  | .num n => n != 0
  | .str s => !s.isEmpty
  | .arr xs => !xs.isEmpty
  | .obj kvs => !kvs.isEmpty

/-- Truthiness of `r.get("status", 0)`: how every step result is tested. -/
def statusOk (r : JVal) : Bool := truthy (pyGet r "status" (JVal.num 0))

/-- The list held by the `errors` field of a result (empty when absent). -/
def errorsList (v : JVal) : List JVal :=
  match pyGet v "errors" (JVal.arr []) with
  | .arr xs => xs
  | _ => []

/-- Python truthiness of an optional string argument (`None` and `""` are falsy). -/
def truthyS : Option String → Bool
  | none => false
  | some s => !s.isEmpty

/-- Python truthiness of an optional list argument (`None` and `[]` are falsy). -/
def truthyL : Option (List String) → Bool
  | none => false
  | some l => !l.isEmpty

/-- Python `r.get("status", 0)` where `r` may be `None`:
`none` models the `AttributeError` raised by `None.get`. -/
def py_get_status : Option JVal → Option Bool
  | none => none
  | some v => some (statusOk v)

/-- Python `x and y` on status values: short-circuiting, with `none`
(a raised exception) propagating. The right operand is a thunk because a
falsy left operand prevents its evaluation. -/
def py_and (x : Option Bool) (y : Unit → Option Bool) : Option Bool :=
  match x with
  | none => none
  | some false => some false
  | some true => y ()

/-- One remote invocation: the `(module, function, params)` triple sent to
`https://host:port/execute/{module}/{function}`. All parameter values in this
program are strings. -/
structure RemoteCall where
  module : String
  function : String
  params : List (String × String)
deriving DecidableEq

/-- Outcome of one `requests.post` round trip, as seen by `make_api_request`:
a 2xx response with a parsed JSON object body, a request-level exception
(network error or non-2xx status raised by `raise_for_status`), or a failure
decoding the response body as JSON. -/
inductive TransportOutcome where
  | ok (body : List (String × JVal))
  | netError (e : String)
  | badJson (e : String)

/-- The external world: the control-panel API, the local file system read by
the upload helpers, the WordPress.org secret-key service, and the stream of
`random.choice` draws used by the salts fallback. -/
structure Env where
  api : RemoteCall → TransportOutcome
  readFile : String → Except String String
  salts_service : Except String String
  rand : Nat → Nat

/-- Connection details stored by `CPanelWordPressDeployer.__init__`.
The derived base URL and authorization headers belong to the abstracted
transport layer and carry no information the orchestration inspects. -/
structure Deployer where
  hostname : String
  username : String
  port : Nat

/-- `make_api_request`: one POST to the API; any `RequestException` (network
failure, non-2xx status, JSON decode failure) is caught and normalized to
`{"status": 0, "errors": [str(e)], "data": None}`. The second component is
the list of remote calls attempted (always exactly one). -/
def Deployer.make_api_request (_d : Deployer) (env : Env) (module function : String)
    (params : List (String × String)) : JVal × List RemoteCall :=
  let call : RemoteCall := { module := module, function := function, params := params }
  let response : JVal :=
    match env.api call with
    | .ok body => .obj body
    | .netError e => .obj [("status", .num 0), ("errors", .arr [.str e]), ("data", .null)]
    | .badJson e => .obj [("status", .num 0), ("errors", .arr [.str e]), ("data", .null)]
  (response, [call])

/-- `create_database` (charset keyword defaults to `"utf8"`; the orchestrator
always uses the default, and the unused local `full_db_name` is dropped). -/
def Deployer.create_database (d : Deployer) (env : Env) (db_name : String) :
    JVal × List RemoteCall :=
  d.make_api_request env "Mysql" "create_database" [("name", db_name), ("charset", "utf8")]

/-- `create_db_user` (the unused local `full_user_name` is dropped). -/
def Deployer.create_db_user (d : Deployer) (env : Env) (user_name password : String) :
    JVal × List RemoteCall :=
  d.make_api_request env "Mysql" "create_user" [("name", user_name), ("password", password)]

/-- `assign_user_to_db` (privileges keyword defaults to `"ALL PRIVILEGES"`;
the orchestrator always uses the default). -/
def Deployer.assign_user_to_db (d : Deployer) (env : Env) (db_name user_name : String) :
    JVal × List RemoteCall :=
  d.make_api_request env "Mysql" "set_privileges_on_database"
    [("database", d.username ++ "_" ++ db_name),
     ("user", d.username ++ "_" ++ user_name),
     ("privileges", "ALL PRIVILEGES")]

/-- `download_wordpress`: one composed shell command. -/
def Deployer.download_wordpress (d : Deployer) (env : Env) (destination_path : String) :
    JVal × List RemoteCall :=
  d.make_api_request env "Execute" "exec"
    [("command", "cd " ++ destination_path ++
      " && wget https://wordpress.org/latest.zip && unzip latest.zip && mv wordpress/* . && rm -rf wordpress latest.zip")]

/-- `string.ascii_letters`. -/
def ascii_letters : String := "abcdefghijklmnopqrstuvwxyzABCDEFGHIJKLMNOPQRSTUVWXYZ"

/-- `string.digits`. -/
def string_digits : String := "0123456789"

/-- `string.punctuation`. -/
def string_punctuation : String := "!\"#$%&\x27()*+,-./:;<=>?@[\\]^_\x60\x7b|\x7d~"

/-- `chars = string.ascii_letters + string.digits + string.punctuation`:
the alphabet of the salts fallback in `create_wp_config`. -/
def fallback_chars : String := ascii_letters ++ string_digits ++ string_punctuation

/-- `random.choice(s)` at the `i`-th draw of the stream: an index below the
length of the sequence, applied to it. -/
def py_random_choice (rand : Nat → Nat) (i : Nat) (s : String) : Char :=
  s.data.getD (rand i % s.data.length) 'a'

/-- `''.join(random.choice(chars) for _ in range(64))`:
the single locally generated random string of the salts fallback. -/
def random_string (rand : Nat → Nat) : String :=
  String.mk ((List.range 64).map (fun i => py_random_choice rand i fallback_chars))

/-- The fallback salts block of `create_wp_config` (source lines 209-218):
one random string interpolated into all eight security constants. -/
def fallback_salts (rand : Nat → Nat) : String :=
  let random_string := random_string rand
  "\ndefine(\x27AUTH_KEY\x27,         \x27" ++ random_string ++ "\x27);\n" ++
  "define(\x27SECURE_AUTH_KEY\x27,  \x27" ++ random_string ++ "\x27);\n" ++
  "define(\x27LOGGED_IN_KEY\x27,    \x27" ++ random_string ++ "\x27);\n" ++
  "define(\x27NONCE_KEY\x27,        \x27" ++ random_string ++ "\x27);\n" ++
  "define(\x27AUTH_SALT\x27,        \x27" ++ random_string ++ "\x27);\n" ++
  "define(\x27SECURE_AUTH_SALT\x27, \x27" ++ random_string ++ "\x27);\n" ++
  "define(\x27LOGGED_IN_SALT\x27,   \x27" ++ random_string ++ "\x27);\n" ++
  "define(\x27NONCE_SALT\x27,       \x27" ++ random_string ++ "\x27);\n"

/-- The salts block as a function of eight independent key values, following
the spec's description of the eight required security constants; used to state
that the fallback fills all eight positions with one identical string. -/
def salts_block (k1 k2 k3 k4 k5 k6 k7 k8 : String) : String :=
  "\ndefine(\x27AUTH_KEY\x27,         \x27" ++ k1 ++ "\x27);\n" ++
  "define(\x27SECURE_AUTH_KEY\x27,  \x27" ++ k2 ++ "\x27);\n" ++
  "define(\x27LOGGED_IN_KEY\x27,    \x27" ++ k3 ++ "\x27);\n" ++
  "define(\x27NONCE_KEY\x27,        \x27" ++ k4 ++ "\x27);\n" ++
  "define(\x27AUTH_SALT\x27,        \x27" ++ k5 ++ "\x27);\n" ++
  "define(\x27SECURE_AUTH_SALT\x27, \x27" ++ k6 ++ "\x27);\n" ++
  "define(\x27LOGGED_IN_SALT\x27,   \x27" ++ k7 ++ "\x27);\n" ++
  "define(\x27NONCE_SALT\x27,       \x27" ++ k8 ++ "\x27);\n"

/-- The salts text used by `create_wp_config`: the body returned by the
WordPress.org secret-key service, or — under the bare `except:` — the locally
generated fallback block. -/
def wp_config_salts (env : Env) : String :=
  match env.salts_service with
  | .ok text => text
  | .error _ => fallback_salts env.rand

/-- Modelled from the spec: the tail of `create_wp_config` (source lines
219-222) is truncated in the repository — the configuration-file template and
the final command string are missing from src. Per the spec, the step composes
the database connection details (host defaulting to `localhost`) and the salts
block into the configuration file content. No claim depends on this text. -/
def wp_config_content (db_name db_user db_password db_host salts : String) : String :=
  "define(\x27DB_NAME\x27, \x27" ++ db_name ++ "\x27);\n" ++
  "define(\x27DB_USER\x27, \x27" ++ db_user ++ "\x27);\n" ++
  "define(\x27DB_PASSWORD\x27, \x27" ++ db_password ++ "\x27);\n" ++
  "define(\x27DB_HOST\x27, \x27" ++ db_host ++ "\x27);\n" ++ salts

/-- `create_wp_config`: fetch the salts (falling back locally on any failure,
source lines 199-218), then write the configuration file with one
heredoc-style shell command sent to the generic execute operation (the write
command itself is modelled from the spec, see `wp_config_content`). -/
def Deployer.create_wp_config (d : Deployer) (env : Env)
    (path db_name db_user db_password : String) : JVal × List RemoteCall :=
  let salts := wp_config_salts env
  d.make_api_request env "Execute" "exec"
    [("command", "cat > " ++ path ++ "/wp-config.php << \x27EOL\x27\n" ++
      wp_config_content db_name db_user db_password "localhost" salts ++ "\nEOL")]

/-- `set_file_permissions`: one composed shell command (755 directories,
644 files, 600 for `wp-config.php`). -/
def Deployer.set_file_permissions (d : Deployer) (env : Env) (path : String) :
    JVal × List RemoteCall :=
  d.make_api_request env "Execute" "exec"
    [("command", "\nfind " ++ path ++ " -type d -exec chmod 755 \x7b\x7d \\;\nfind " ++ path ++
      " -type f -exec chmod 644 \x7b\x7d \\;\nchmod 600 " ++ path ++ "/wp-config.php\n")]

/-- `run_wp_installation`: the WP-CLI core-install command. -/
def Deployer.run_wp_installation (d : Deployer) (env : Env)
    (path site_url title admin_user admin_password admin_email : String) :
    JVal × List RemoteCall :=
  d.make_api_request env "Execute" "exec"
    [("command", "\ncd " ++ path ++ " &&\nwp core install --url=\x27" ++ site_url ++
      "\x27 --title=\x27" ++ title ++ "\x27 --admin_user=\x27" ++ admin_user ++
      "\x27 --admin_password=\x27" ++ admin_password ++ "\x27 --admin_email=\x27" ++
      admin_email ++ "\x27 --skip-email\n")]

/-- The command string composed by `install_elementor`. -/
def install_elementor_command (path : String) : String :=
  "\ncd " ++ path ++ " &&\nwp plugin install elementor --activate\n"

/-- `install_elementor`: install and activate the free Elementor plugin. -/
def Deployer.install_elementor (d : Deployer) (env : Env) (path : String) :
    JVal × List RemoteCall :=
  d.make_api_request env "Execute" "exec" [("command", install_elementor_command path)]

/-- `install_elementor_pro`: validate the two required inputs locally (Python
truthiness, so `None` and `""` are both "missing"), returning a synthetic
failed result without any remote call; otherwise one composed command
installing the uploaded zip and activating the license. The synthetic results
carry no `data` key, exactly as in the source. -/
def Deployer.install_elementor_pro (d : Deployer) (env : Env) (path : String)
    (license_key pro_zip_path : Option String) : JVal × List RemoteCall :=
  if truthyS license_key = false then
    (.obj [("status", .num 0), ("errors", .arr [.str "No Elementor Pro license key provided"])], [])
  else if truthyS pro_zip_path = false then
    (.obj [("status", .num 0), ("errors", .arr [.str "No Elementor Pro zip file path provided"])], [])
  else
    d.make_api_request env "Execute" "exec"
      [("command", "\ncd " ++ path ++ " &&\nwp plugin install " ++ pro_zip_path.getD "" ++
        " --activate &&\nwp elementor license activate " ++ license_key.getD "" ++ "\n")]

/-- The kit-import command string; the URL branch and the file branch of
`import_elementor_kit` compose textually identical commands around their
respective source argument. -/
def kit_import_command (path target : String) : String :=
  "\ncd " ++ path ++ " &&\nwp elementor kit import " ++ target ++ " --yes\n"

/-- `import_elementor_kit`: import from the URL if one is (truthily) given,
else from the server-side file if given, else fail locally with a synthetic
result and no remote call. -/
def Deployer.import_elementor_kit (d : Deployer) (env : Env) (path : String)
    (kit_url kit_file : Option String) : JVal × List RemoteCall :=
  if truthyS kit_url then
    d.make_api_request env "Execute" "exec"
      [("command", kit_import_command path (kit_url.getD ""))]
  else if truthyS kit_file then
    d.make_api_request env "Execute" "exec"
      [("command", kit_import_command path (kit_file.getD ""))]
  else
    (.obj [("status", .num 0), ("errors", .arr [.str "No kit URL or file provided"])], [])

/-- Split a character list at `/` separators: the splitting underlying
`os.path.dirname` / `os.path.basename` on the POSIX server paths used here. -/
def splitSlash : List Char → List String
  | [] => [""]
  | c :: cs =>
    let rest := splitSlash cs
    if c = '/' then "" :: rest
    else
      match rest with
      | [] => [String.mk [c]]
      | r :: rs => String.mk (c :: r.data) :: rs

/-- `os.path.dirname` for the slash-separated server paths used here. -/
def dirname (p : String) : String :=
  String.intercalate "/" (splitSlash p.data).dropLast

/-- `os.path.basename` for the slash-separated server paths used here. -/
def basename (p : String) : String :=
  ((splitSlash p.data).getLastD "")

/-- `upload_kit_file`: read and base64-encode the local file (any local failure
becomes a synthetic error result with no remote call), then one structured
`Fileman::save_file_content` call. -/
def Deployer.upload_kit_file (d : Deployer) (env : Env) (local_path server_path : String) :
    JVal × List RemoteCall :=
  match env.readFile local_path with
  | .error e =>
      (.obj [("status", .num 0), ("errors", .arr [.str ("Failed to read local file: " ++ e)])], [])
  | .ok content =>
      d.make_api_request env "Fileman" "save_file_content"
        [("dir", dirname server_path), ("file", basename server_path), ("content", content)]

/-- `upload_elementor_pro_zip`: identical to `upload_kit_file` up to the error
message, as in the source. -/
def Deployer.upload_elementor_pro_zip (d : Deployer) (env : Env)
    (local_path server_path : String) : JVal × List RemoteCall :=
  match env.readFile local_path with
  | .error e =>
      (.obj [("status", .num 0), ("errors", .arr [.str ("Failed to read Elementor Pro zip: " ++ e)])], [])
  | .ok content =>
      d.make_api_request env "Fileman" "save_file_content"
        [("dir", dirname server_path), ("file", basename server_path), ("content", content)]

/-- The incrementally built result dictionary of `deploy_wordpress`: one entry
per step (`none` = the key still holds Python `None`, i.e. the step was never
attempted), the derived `success` flag (modelled as the truthiness of the
stored value) and the precomputed `admin_url`. -/
structure BaseReport where
  database_creation : Option JVal
  database_user_creation : Option JVal
  user_privileges : Option JVal
  wordpress_download : Option JVal
  wp_config_creation : Option JVal
  permissions : Option JVal
  installation : Option JVal
  theme_installation : Option JVal
  plugin_installation : Option JVal
  success : Bool
  admin_url : String

/-- The five Elementor entries that `deploy_wordpress_with_elementor` adds to
the result dictionary via `results.update`. -/
structure ElementorReport where
  elementor_installation : Option JVal
  elementor_pro_upload : Option JVal
  elementor_pro_installation : Option JVal
  kit_upload : Option JVal
  kit_import : Option JVal

/-- The dictionary returned by `deploy_wordpress_with_elementor`.
`elementor = none` models the case where the `results.update` adding the five
Elementor keys never ran (the base pipeline failed), so those keys are absent
from the returned dictionary — not mapped to `None`. -/
structure ExtReport where
  base : BaseReport
  elementor : Option ElementorReport

/-- `deploy_wordpress`: the seven-step mandatory chain with early return on
the first falsy status, the two optional steps, and the final conjunction of
the seven mandatory statuses. The second component is the list of remote
calls attempted, in order. -/
def Deployer.deploy_wordpress (d : Deployer) (env : Env)
    (domain path db_name db_user db_password site_title admin_user admin_password admin_email : String)
    (install_theme : Option String) (install_plugins : Option (List String)) :
    BaseReport × List RemoteCall :=
  let results0 : BaseReport :=
    { database_creation := none, database_user_creation := none, user_privileges := none,
      wordpress_download := none, wp_config_creation := none, permissions := none,
      installation := none, theme_installation := none, plugin_installation := none,
      success := false, admin_url := "https://" ++ domain ++ "/wp-admin/" }
  let s1 := d.create_database env db_name
  let results1 := { results0 with database_creation := some s1.1 }
  if statusOk s1.1 = false then (results1, s1.2) else
  let s2 := d.create_db_user env db_user db_password
  let results2 := { results1 with database_user_creation := some s2.1 }
  if statusOk s2.1 = false then (results2, s1.2 ++ s2.2) else
  let s3 := d.assign_user_to_db env db_name db_user
  let results3 := { results2 with user_privileges := some s3.1 }
  if statusOk s3.1 = false then (results3, s1.2 ++ s2.2 ++ s3.2) else
  let s4 := d.download_wordpress env path
  let results4 := { results3 with wordpress_download := some s4.1 }
  if statusOk s4.1 = false then (results4, s1.2 ++ s2.2 ++ s3.2 ++ s4.2) else
  let s5 := d.create_wp_config env path db_name db_user db_password
  let results5 := { results4 with wp_config_creation := some s5.1 }
  if statusOk s5.1 = false then (results5, s1.2 ++ s2.2 ++ s3.2 ++ s4.2 ++ s5.2) else
  let s6 := d.set_file_permissions env path
  let results6 := { results5 with permissions := some s6.1 }
  if statusOk s6.1 = false then (results6, s1.2 ++ s2.2 ++ s3.2 ++ s4.2 ++ s5.2 ++ s6.2) else
  let s7 := d.run_wp_installation env path domain site_title admin_user admin_password admin_email
  let results7 := { results6 with installation := some s7.1 }
  if statusOk s7.1 = false then
    (results7, s1.2 ++ s2.2 ++ s3.2 ++ s4.2 ++ s5.2 ++ s6.2 ++ s7.2) else
  let themePart : Option JVal × List RemoteCall :=
    if truthyS install_theme && statusOk s7.1 then
      let st := d.make_api_request env "Execute" "exec"
        [("command", "cd " ++ path ++ " && wp theme install " ++ install_theme.getD "" ++ " --activate")]
      (some st.1, st.2)
    else (none, [])
  let pluginPart : Option JVal × List RemoteCall :=
    if truthyL install_plugins && statusOk s7.1 then
      let plugin_commands := String.intercalate " && "
        ((install_plugins.getD []).map (fun p => "wp plugin install " ++ p ++ " --activate"))
      let sp := d.make_api_request env "Execute" "exec"
        [("command", "cd " ++ path ++ " && " ++ plugin_commands)]
      (some sp.1, sp.2)
    else (none, [])
  let results8 := { results7 with theme_installation := themePart.1,
                                  plugin_installation := pluginPart.1 }
  let success := statusOk s1.1 && statusOk s2.1 && statusOk s3.1 && statusOk s4.1 &&
    statusOk s5.1 && statusOk s6.1 && statusOk s7.1
  ({ results8 with success := success },
   s1.2 ++ s2.2 ++ s3.2 ++ s4.2 ++ s5.2 ++ s6.2 ++ s7.2 ++ themePart.2 ++ pluginPart.2)

/-- `deploy_wordpress_with_elementor`: run the base pipeline (theme `None`,
plugins `install_plugins or []`), return its report unchanged if it failed;
otherwise add the five Elementor keys, run the Elementor sub-chain (the free
install's status is never checked before the Pro and kit-upload steps), and
fold the Elementor statuses into `success`. The success aggregation re-reads
entries with `.get`, which raises `AttributeError` on a `None` entry: a `none`
first component models that exception escaping (reachable when a kit source
was supplied but `kit_import` was never attempted). -/
def Deployer.deploy_wordpress_with_elementor (d : Deployer) (env : Env)
    (domain path db_name db_user db_password site_title admin_user admin_password admin_email : String)
    (elementor_pro_key elementor_pro_local_path kit_url kit_local_path : Option String)
    (install_plugins : Option (List String)) :
    Option ExtReport × List RemoteCall :=
  let b := d.deploy_wordpress env domain path db_name db_user db_password site_title
    admin_user admin_password admin_email none (some (install_plugins.getD []))
  if b.1.success = false then (some { base := b.1, elementor := none }, b.2) else
  let sE := d.install_elementor env path
  let proPart : Option JVal × Option JVal × List RemoteCall :=
    if truthyS elementor_pro_key && truthyS elementor_pro_local_path then
      let server_pro_path := path ++ "/wp-content/uploads/elementor-pro.zip"
      let sUp := d.upload_elementor_pro_zip env (elementor_pro_local_path.getD "") server_pro_path
      if statusOk sUp.1 then
        let sInst := d.install_elementor_pro env path elementor_pro_key (some server_pro_path)
        (some sUp.1, some sInst.1, sUp.2 ++ sInst.2)
      else (some sUp.1, none, sUp.2)
    else (none, none, [])
  let kitPart : Option String × Option JVal × List RemoteCall :=
    if truthyS kit_local_path then
      let kit_server_path := path ++ "/wp-content/uploads/elementor-kit.zip"
      let sKitUp := d.upload_kit_file env (kit_local_path.getD "") kit_server_path
      (some kit_server_path, some sKitUp.1, sKitUp.2)
    else (none, none, [])
  let importPart : Option JVal × List RemoteCall :=
    if (truthyS kit_url || truthyS kitPart.1) && statusOk sE.1 then
      let sImp := d.import_elementor_kit env path kit_url kitPart.1
      (some sImp.1, sImp.2)
    else (none, [])
  let es1 : Option Bool :=
    if truthyS elementor_pro_key && truthyS elementor_pro_local_path then
      match py_and (py_get_status proPart.1) (fun _ => py_get_status proPart.2.1) with
      | none => none
      | some pro_success => some (statusOk sE.1 && pro_success)
    else some (statusOk sE.1)
  let es2 : Option Bool :=
    match es1 with
    | none => none
    | some es =>
      if truthyS kit_url || truthyS kit_local_path then
        let ks :=
          if truthyS kit_local_path then
            py_and (py_get_status kitPart.2.1) (fun _ => py_get_status importPart.1)
          else py_get_status importPart.1
        match ks with
        | none => none
        | some kit_success => some (es && kit_success)
      else some es
  let log := b.2 ++ sE.2 ++ proPart.2.2 ++ kitPart.2.2 ++ importPart.2
  match es2 with
  | none => (none, log)
  | some es =>
      (some { base := { b.1 with success := b.1.success && es },
              elementor := some
                { elementor_installation := some sE.1,
                  elementor_pro_upload := proPart.1,
                  elementor_pro_installation := proPart.2.1,
                  kit_upload := kitPart.2.1,
                  kit_import := importPart.1 } },
       log)

/-- The failure result shape produced by `make_api_request` for a transport
failure with description `e` (used to state properties about it). -/
def errObj (e : String) : JVal :=
  .obj [("status", .num 0), ("errors", .arr [.str e]), ("data", .null)]

/-- A deployer instance for concrete runs. -/
def dEx : Deployer := { hostname := "example.com", username := "cpanelusername", port := 2083 }

/-- A successful remote response body. -/
def okBody : List (String × JVal) := [("status", JVal.num 1)]

/-- Environment in which every remote call succeeds and every local service works. -/
def envAllOk : Env :=
  { api := fun _ => .ok okBody,
    readFile := fun _ => .ok "KITCONTENT",
    salts_service := .ok "SALTS",
    rand := fun _ => 0 }

/-- Environment in which the very first step (database creation) fails. -/
def envDbFail : Env :=
  { envAllOk with
    api := fun c =>
      if c.module = "Mysql" && c.function = "create_database" then .netError "db down"
      else .ok okBody }

/-- Environment in which exactly the free Elementor install (for path `/h`)
fails and everything else succeeds. -/
def envElemFail : Env :=
  { envAllOk with
    api := fun c =>
      if c.params = [("command", install_elementor_command "/h")] then .netError "repo down"
      else .ok okBody }

/-- Environment in which the secret-key service is down. -/
def envSaltsDown : Env := { envAllOk with salts_service := .error "salt service unreachable" }

/-- Environment in which every remote call fails at the transport level. -/
def envNetFail : Env := { envAllOk with api := fun _ => .netError "connection refused" }

/-- Environment in which remote calls succeed but local file reads fail
(so both upload steps fail locally). -/
def envReadFail : Env := { envAllOk with readFile := fun _ => .error "no such file" }

/-- C2: `make_api_request` never raises (it is total); for every module,
function and parameter set, a transport-level failure — network error, non-2xx
HTTP status, or malformed JSON response — is returned as exactly
`{status: 0, errors: [str(e)], data: None}`: a falsy status, a non-empty
errors list containing the exception's description, and a null data field. -/
theorem C2_transport_failures_normalized (d : Deployer) (env : Env)
    (module function : String) (params : List (String × String)) (e : String)
    (h : env.api { module := module, function := function, params := params } =
           TransportOutcome.netError e ∨
         env.api { module := module, function := function, params := params } =
           TransportOutcome.badJson e) :
    (d.make_api_request env module function params).1 = errObj e ∧
    statusOk (d.make_api_request env module function params).1 = false ∧
    errorsList (d.make_api_request env module function params).1 ≠ [] ∧
    JVal.str e ∈ errorsList (d.make_api_request env module function params).1 ∧
    pyGet (d.make_api_request env module function params).1 "data" JVal.null = JVal.null := by
  rcases h with h | h <;>
    simp [Deployer.make_api_request, h, errObj, statusOk, errorsList, pyGet, jGet, truthy]

/-- Concrete instance of C2 at a network failure. -/
theorem C2_witness :
    (dEx.make_api_request envNetFail "Mysql" "create_database"
      [("name", "wp"), ("charset", "utf8")]).1 = errObj "connection refused" ∧
    statusOk (dEx.make_api_request envNetFail "Mysql" "create_database"
      [("name", "wp"), ("charset", "utf8")]).1 = false ∧
    errorsList (dEx.make_api_request envNetFail "Mysql" "create_database"
      [("name", "wp"), ("charset", "utf8")]).1 ≠ [] ∧
    JVal.str "connection refused" ∈ errorsList (dEx.make_api_request envNetFail "Mysql"
      "create_database" [("name", "wp"), ("charset", "utf8")]).1 ∧
    pyGet (dEx.make_api_request envNetFail "Mysql" "create_database"
      [("name", "wp"), ("charset", "utf8")]).1 "data" JVal.null = JVal.null :=
  C2_transport_failures_normalized dEx envNetFail "Mysql" "create_database"
    [("name", "wp"), ("charset", "utf8")] "connection refused" (Or.inl rfl)

/-- C8: calling `install_elementor_pro` with a missing (falsy) license key or
package path, or `import_elementor_kit` with neither a URL nor a file, returns
a synthetic failed result — falsy status, non-empty errors list — computed
locally, with no remote call made (empty call log). -/
theorem C8_missing_inputs_fail_locally (d : Deployer) (env : Env) (path : String)
    (license_key pro_zip_path kit_url kit_file : Option String) :
    (truthyS license_key = false ∨ truthyS pro_zip_path = false →
      statusOk (d.install_elementor_pro env path license_key pro_zip_path).1 = false ∧
      errorsList (d.install_elementor_pro env path license_key pro_zip_path).1 ≠ [] ∧
      (d.install_elementor_pro env path license_key pro_zip_path).2 = []) ∧
    (truthyS kit_url = false → truthyS kit_file = false →
      statusOk (d.import_elementor_kit env path kit_url kit_file).1 = false ∧
      errorsList (d.import_elementor_kit env path kit_url kit_file).1 ≠ [] ∧
      (d.import_elementor_kit env path kit_url kit_file).2 = []) := by
  constructor
  · intro h
    unfold Deployer.install_elementor_pro
    rcases h with h | h
    · simp [h, statusOk, errorsList, pyGet, jGet, truthy]
    · by_cases hl : truthyS license_key = false <;>
        simp [h, hl, statusOk, errorsList, pyGet, jGet, truthy]
  · intro hu hf
    simp [Deployer.import_elementor_kit, hu, hf, statusOk, errorsList, pyGet, jGet, truthy]

/-- Concrete instance of C8 with every optional input absent. -/
theorem C8_witness :
    (statusOk (dEx.install_elementor_pro envAllOk "/h" none none).1 = false ∧
     errorsList (dEx.install_elementor_pro envAllOk "/h" none none).1 ≠ [] ∧
     (dEx.install_elementor_pro envAllOk "/h" none none).2 = []) ∧
    (statusOk (dEx.import_elementor_kit envAllOk "/h" none none).1 = false ∧
     errorsList (dEx.import_elementor_kit envAllOk "/h" none none).1 ≠ [] ∧
     (dEx.import_elementor_kit envAllOk "/h" none none).2 = []) :=
  ⟨(C8_missing_inputs_fail_locally dEx envAllOk "/h" none none none none).1 (Or.inl rfl),
   (C8_missing_inputs_fail_locally dEx envAllOk "/h" none none none none).2 rfl rfl⟩

/-- C9: when the secret-key service is unreachable, `create_wp_config` falls
back to one locally generated 64-character random string drawn from letters,
digits and punctuation, and that identical string fills all eight security
constants (AUTH_KEY through NONCE_SALT) of the generated salts block. -/
theorem C9_salts_fallback (env : Env) (e : String)
    (h : env.salts_service = Except.error e) :
    wp_config_salts env =
      salts_block (random_string env.rand) (random_string env.rand) (random_string env.rand)
        (random_string env.rand) (random_string env.rand) (random_string env.rand)
        (random_string env.rand) (random_string env.rand) ∧
    (random_string env.rand).length = 64 ∧
    ∀ c ∈ (random_string env.rand).data, c ∈ fallback_chars.data := by
  refine ⟨?_, ?_, ?_⟩
  · simp [wp_config_salts, h, fallback_salts, salts_block]
  · simp [random_string, String.length]
  · intro c hc
    simp only [random_string, String.mk, List.mem_map, List.mem_range] at hc
    obtain ⟨i, _, rfl⟩ := hc
    unfold py_random_choice
    have hlen : 0 < fallback_chars.data.length := by decide
    have hidx : env.rand i % fallback_chars.data.length < fallback_chars.data.length :=
      Nat.mod_lt _ hlen
    rw [List.getD_eq_getElem _ _ hidx]
    exact List.getElem_mem hidx

/-- Concrete instance of C9 with the service down. -/
theorem C9_witness :
    wp_config_salts envSaltsDown =
      salts_block (random_string envSaltsDown.rand) (random_string envSaltsDown.rand)
        (random_string envSaltsDown.rand) (random_string envSaltsDown.rand)
        (random_string envSaltsDown.rand) (random_string envSaltsDown.rand)
        (random_string envSaltsDown.rand) (random_string envSaltsDown.rand) ∧
    (random_string envSaltsDown.rand).length = 64 :=
  ⟨(C9_salts_fallback envSaltsDown "salt service unreachable" rfl).1,
   (C9_salts_fallback envSaltsDown "salt service unreachable" rfl).2.1⟩

/-- C4: if the base pipeline's success is false, the extended orchestrator
returns the base report unchanged (the five Elementor keys are never added)
and attempts no Elementor step at all: the call log is exactly the base
pipeline's log. -/
theorem C4_base_failure_skips_elementor (d : Deployer) (env : Env)
    (domain path db_name db_user db_password site_title admin_user admin_password admin_email :
      String)
    (elementor_pro_key elementor_pro_local_path kit_url kit_local_path : Option String)
    (install_plugins : Option (List String))
    (h : (d.deploy_wordpress env domain path db_name db_user db_password site_title admin_user
      admin_password admin_email none (some (install_plugins.getD []))).1.success = false) :
    d.deploy_wordpress_with_elementor env domain path db_name db_user db_password site_title
      admin_user admin_password admin_email elementor_pro_key elementor_pro_local_path kit_url
      kit_local_path install_plugins =
    (some (ExtReport.mk (d.deploy_wordpress env domain path db_name db_user db_password site_title
        admin_user admin_password admin_email none (some (install_plugins.getD []))).1 none),
     (d.deploy_wordpress env domain path db_name db_user db_password site_title admin_user
        admin_password admin_email none (some (install_plugins.getD []))).2) := by
  unfold Deployer.deploy_wordpress_with_elementor
  simp [h]

/-- Concrete instance of C4: database creation fails, Pro and kit inputs were
supplied, yet the extended pipeline returns the bare base report and makes no
further call. -/
theorem C4_witness :
    dEx.deploy_wordpress_with_elementor envDbFail "example.com" "/h" "wp" "wpu" "pw" "T"
      "adm" "apw" "a@b.c" (some "KEY") (some "/local/pro.zip") none (some "/local/kit.zip")
      (some ["contact-form-7"]) =
    (some (ExtReport.mk (dEx.deploy_wordpress envDbFail "example.com" "/h" "wp" "wpu" "pw" "T"
        "adm" "apw" "a@b.c" none (some ((some ["contact-form-7"]).getD []))).1 none),
     (dEx.deploy_wordpress envDbFail "example.com" "/h" "wp" "wpu" "pw" "T" "adm" "apw"
        "a@b.c" none (some ((some ["contact-form-7"]).getD []))).2) :=
  C4_base_failure_skips_elementor dEx envDbFail "example.com" "/h" "wp" "wpu" "pw" "T"
    "adm" "apw" "a@b.c" (some "KEY") (some "/local/pro.zip") none (some "/local/kit.zip")
    (some ["contact-form-7"]) rfl

/-- C5: if all seven mandatory steps return a truthy status and no optional
input is supplied (theme and plugin list absent or empty), the base report has
`success = true` and both optional entries remain null. -/
theorem C5_success_with_no_optionals (d : Deployer) (env : Env)
    (domain path db_name db_user db_password site_title admin_user admin_password admin_email :
      String)
    (install_theme : Option String) (install_plugins : Option (List String))
    (h1 : statusOk (d.create_database env db_name).1 = true)
    (h2 : statusOk (d.create_db_user env db_user db_password).1 = true)
    (h3 : statusOk (d.assign_user_to_db env db_name db_user).1 = true)
    (h4 : statusOk (d.download_wordpress env path).1 = true)
    (h5 : statusOk (d.create_wp_config env path db_name db_user db_password).1 = true)
    (h6 : statusOk (d.set_file_permissions env path).1 = true)
    (h7 : statusOk (d.run_wp_installation env path domain site_title admin_user admin_password
      admin_email).1 = true)
    (ht : truthyS install_theme = false)
    (hp : truthyL install_plugins = false) :
    (d.deploy_wordpress env domain path db_name db_user db_password site_title admin_user
      admin_password admin_email install_theme install_plugins).1.success = true ∧
    (d.deploy_wordpress env domain path db_name db_user db_password site_title admin_user
      admin_password admin_email install_theme install_plugins).1.theme_installation = none ∧
    (d.deploy_wordpress env domain path db_name db_user db_password site_title admin_user
      admin_password admin_email install_theme install_plugins).1.plugin_installation = none := by
  unfold Deployer.deploy_wordpress
  simp [h1, h2, h3, h4, h5, h6, h7, ht, hp]

/-- Concrete instance of C5 in the all-success environment. -/
theorem C5_witness :
    (dEx.deploy_wordpress envAllOk "example.com" "/h" "wp" "wpu" "pw" "T" "adm" "apw"
      "a@b.c" none none).1.success = true ∧
    (dEx.deploy_wordpress envAllOk "example.com" "/h" "wp" "wpu" "pw" "T" "adm" "apw"
      "a@b.c" none none).1.theme_installation = none ∧
    (dEx.deploy_wordpress envAllOk "example.com" "/h" "wp" "wpu" "pw" "T" "adm" "apw"
      "a@b.c" none none).1.plugin_installation = none :=
  C5_success_with_no_optionals dEx envAllOk "example.com" "/h" "wp" "wpu" "pw" "T" "adm"
    "apw" "a@b.c" none none rfl rfl rfl rfl rfl rfl rfl rfl rfl

/-- C3: in an extended deployment with both a Pro license key and a Pro
package path supplied, if the Pro package upload's result has a falsy status
then the Pro installation step is never attempted (its entry stays null) and
any returned report has overall `success = false`. -/
theorem C3_pro_upload_failure_skips_install (d : Deployer) (env : Env)
    (domain path db_name db_user db_password site_title admin_user admin_password admin_email :
      String)
    (elementor_pro_key elementor_pro_local_path kit_url kit_local_path : Option String)
    (install_plugins : Option (List String)) (rep : ExtReport)
    (hk : truthyS elementor_pro_key = true)
    (hp : truthyS elementor_pro_local_path = true)
    (hup : statusOk (d.upload_elementor_pro_zip env (elementor_pro_local_path.getD "")
      (path ++ "/wp-content/uploads/elementor-pro.zip")).1 = false)
    (hrep : (d.deploy_wordpress_with_elementor env domain path db_name db_user db_password
      site_title admin_user admin_password admin_email elementor_pro_key
      elementor_pro_local_path kit_url kit_local_path install_plugins).1 = some rep) :
    (∀ e, rep.elementor = some e → e.elementor_pro_installation = none) ∧
    rep.base.success = false := by
  unfold Deployer.deploy_wordpress_with_elementor at hrep
  simp only [hk, hp, Bool.and_self, if_true, hup, if_false, Bool.false_eq_true,
    reduceIte] at hrep
  split at hrep
  · rename_i hb
    simp only [Option.some.injEq] at hrep
    subst hrep
    exact ⟨fun e he => by simp at he, hb⟩
  · rename_i hb
    simp only [py_and, py_get_status, hup, Bool.and_false] at hrep
    split at hrep
    · simp at hrep
    · rename_i es hes
      simp only [Option.some.injEq] at hrep
      subst hrep
      refine ⟨fun e he => ?_, ?_⟩
      · simp only [Option.some.injEq] at he
        subst he
        rfl
      · have hesf : es = false := by
          split at hes
          · split at hes
            · simp at hes
            · simp only [Bool.false_and, Option.some.injEq] at hes
              exact hes.symm
          · simp only [Option.some.injEq] at hes
            exact hes.symm
        subst hesf
        simp

/-- Concrete instance of C3: the Pro zip cannot be read locally, so the upload
fails; the installation entry stays null and the report is unsuccessful. -/
theorem C3_witness :
    (((dEx.deploy_wordpress_with_elementor envReadFail "example.com" "/h" "wp" "wpu" "pw" "T"
        "adm" "apw" "a@b.c" (some "KEY") (some "/local/pro.zip") none none none).1.bind
        ExtReport.elementor).map ElementorReport.elementor_pro_installation = some none) ∧
    ((dEx.deploy_wordpress_with_elementor envReadFail "example.com" "/h" "wp" "wpu" "pw" "T"
        "adm" "apw" "a@b.c" (some "KEY") (some "/local/pro.zip") none none none).1.map
        (fun r => r.base.success) = some false) := by
  obtain ⟨rep, hrep⟩ :
      ∃ rep, (dEx.deploy_wordpress_with_elementor envReadFail "example.com" "/h" "wp" "wpu"
        "pw" "T" "adm" "apw" "a@b.c" (some "KEY") (some "/local/pro.zip") none none
        none).1 = some rep := ⟨_, rfl⟩
  obtain ⟨e, he⟩ :
      ∃ e, ((dEx.deploy_wordpress_with_elementor envReadFail "example.com" "/h" "wp" "wpu"
        "pw" "T" "adm" "apw" "a@b.c" (some "KEY") (some "/local/pro.zip") none none
        none).1.bind ExtReport.elementor) = some e := ⟨_, rfl⟩
  rw [hrep] at he
  simp only [Option.some_bind] at he
  have h := C3_pro_upload_failure_skips_install dEx envReadFail "example.com" "/h" "wp"
    "wpu" "pw" "T" "adm" "apw" "a@b.c" (some "KEY") (some "/local/pro.zip") none none
    none rep rfl rfl rfl hrep
  rw [hrep]
  simp [he, h.1 e he, h.2]

/-- Appending a non-empty suffix yields a truthy (non-empty) string; used for
the server-side upload paths built from the installation path. -/
theorem truthyS_some_append (p s : String) (hs : s.length ≠ 0) :
    truthyS (some (p ++ s)) = true := by
  simp only [truthyS, Bool.not_eq_true']
  cases h : (p ++ s).isEmpty
  · rfl
  · exfalso
    rw [String.isEmpty_iff] at h
    have h2 := congrArg String.length h
    rw [String.length_append] at h2
    have h4 : "".length = 0 := rfl
    omega

/-- C10: in an extended deployment where a local kit file is supplied, its
upload fails (falsy status) and the free Elementor install succeeded, the
kit import step is nevertheless attempted, passing as the kit file the
server-side target path of the failed upload, and the returned report's overall success is
false. -/
theorem C10_kit_import_after_failed_upload (d : Deployer) (env : Env)
    (domain path db_name db_user db_password site_title admin_user admin_password admin_email :
      String)
    (elementor_pro_key elementor_pro_local_path kit_url kit_local_path : Option String)
    (install_plugins : Option (List String)) (rep : ExtReport) (e : ElementorReport)
    (hl : truthyS kit_local_path = true)
    (hinst : statusOk (d.install_elementor env path).1 = true)
    (hup : statusOk (d.upload_kit_file env (kit_local_path.getD "")
      (path ++ "/wp-content/uploads/elementor-kit.zip")).1 = false)
    (hrep : (d.deploy_wordpress_with_elementor env domain path db_name db_user db_password
      site_title admin_user admin_password admin_email elementor_pro_key
      elementor_pro_local_path kit_url kit_local_path install_plugins).1 = some rep)
    (he : rep.elementor = some e) :
    e.kit_import = some (d.import_elementor_kit env path kit_url
      (some (path ++ "/wp-content/uploads/elementor-kit.zip"))).1 ∧
    rep.base.success = false := by
  have hsrv : truthyS (some (path ++ "/wp-content/uploads/elementor-kit.zip")) = true :=
    truthyS_some_append path "/wp-content/uploads/elementor-kit.zip" (by decide)
  unfold Deployer.deploy_wordpress_with_elementor at hrep
  by_cases hb : (d.deploy_wordpress env domain path db_name db_user db_password site_title
      admin_user admin_password admin_email none (some (install_plugins.getD []))).1.success =
      false
  · simp only [hb, reduceIte, Option.some.injEq] at hrep
    subst hrep
    simp at he
  · rw [Bool.not_eq_false] at hb
    by_cases hpro : (truthyS elementor_pro_key && truthyS elementor_pro_local_path) = true
    · by_cases hpu : statusOk (d.upload_elementor_pro_zip env (elementor_pro_local_path.getD "")
          (path ++ "/wp-content/uploads/elementor-pro.zip")).1 = true
      · simp [hb, hpro, hpu, hl, hsrv, hinst, hup, py_and, py_get_status] at hrep
        subst hrep
        simp only [Option.some.injEq] at he
        subst he
        exact ⟨rfl, rfl⟩
      · rw [Bool.not_eq_true] at hpu
        simp [hb, hpro, hpu, hl, hsrv, hinst, hup, py_and, py_get_status] at hrep
        subst hrep
        simp only [Option.some.injEq] at he
        subst he
        exact ⟨rfl, rfl⟩
    · rw [Bool.not_eq_true] at hpro
      simp [hb, hpro, hl, hsrv, hinst, hup, py_and, py_get_status] at hrep
      subst hrep
      simp only [Option.some.injEq] at he
      subst he
      exact ⟨rfl, rfl⟩

/-- Concrete instance of C10: the local kit file cannot be read, the upload
fails, yet kit import is attempted with the server-side target path, and the
report is unsuccessful. -/
theorem C10_witness :
    (((dEx.deploy_wordpress_with_elementor envReadFail "example.com" "/h" "wp" "wpu" "pw" "T"
        "adm" "apw" "a@b.c" none none none (some "/local/kit.zip") none).1.bind
        ExtReport.elementor).map ElementorReport.kit_import =
      some (some (dEx.import_elementor_kit envReadFail "/h" none
        (some ("/h" ++ "/wp-content/uploads/elementor-kit.zip"))).1)) ∧
    ((dEx.deploy_wordpress_with_elementor envReadFail "example.com" "/h" "wp" "wpu" "pw" "T"
        "adm" "apw" "a@b.c" none none none (some "/local/kit.zip") none).1.map
        (fun r => r.base.success) = some false) := by
  obtain ⟨rep, hrep⟩ :
      ∃ rep, (dEx.deploy_wordpress_with_elementor envReadFail "example.com" "/h" "wp" "wpu"
        "pw" "T" "adm" "apw" "a@b.c" none none none (some "/local/kit.zip") none).1 =
        some rep := ⟨_, rfl⟩
  obtain ⟨e, he⟩ :
      ∃ e, ((dEx.deploy_wordpress_with_elementor envReadFail "example.com" "/h" "wp" "wpu"
        "pw" "T" "adm" "apw" "a@b.c" none none none (some "/local/kit.zip") none).1.bind
        ExtReport.elementor) = some e := ⟨_, rfl⟩
  rw [hrep] at he
  simp only [Option.some_bind] at he
  have h := C10_kit_import_after_failed_upload dEx envReadFail "example.com" "/h" "wp" "wpu"
    "pw" "T" "adm" "apw" "a@b.c" none none none (some "/local/kit.zip") none rep e rfl rfl
    rfl hrep he
  rw [hrep]
  simp [he, h.1, h.2]

/-- C6: (a) when a kit URL and no local kit file is supplied and the free
Elementor install succeeded, there is no kit upload step (entry stays null)
and kit import is attempted exactly once — `import_elementor_kit` performs the
single URL-import call; (b) kit import is attempted only if the free Elementor
install step succeeded (independent of the Pro inputs): on a falsy install
status the `kit_import` entry of any returned report is null. -/
theorem C6_kit_url_import_and_gating (d : Deployer) (env : Env)
    (domain path db_name db_user db_password site_title admin_user admin_password admin_email :
      String)
    (elementor_pro_key elementor_pro_local_path kit_url kit_local_path : Option String)
    (install_plugins : Option (List String)) (rep : ExtReport) (e : ElementorReport) :
    (truthyS kit_url = true → truthyS kit_local_path = false →
     statusOk (d.install_elementor env path).1 = true →
     (d.deploy_wordpress_with_elementor env domain path db_name db_user db_password site_title
       admin_user admin_password admin_email elementor_pro_key elementor_pro_local_path kit_url
       kit_local_path install_plugins).1 = some rep →
     rep.elementor = some e →
     e.kit_upload = none ∧
     e.kit_import = some (d.import_elementor_kit env path kit_url none).1 ∧
     d.import_elementor_kit env path kit_url none =
       d.make_api_request env "Execute" "exec"
         [("command", kit_import_command path (kit_url.getD ""))]) ∧
    (statusOk (d.install_elementor env path).1 = false →
     (d.deploy_wordpress_with_elementor env domain path db_name db_user db_password site_title
       admin_user admin_password admin_email elementor_pro_key elementor_pro_local_path kit_url
       kit_local_path install_plugins).1 = some rep →
     rep.elementor = some e →
     e.kit_import = none) := by
  constructor
  · intro hu hl hinst hrep he
    unfold Deployer.deploy_wordpress_with_elementor at hrep
    by_cases hb : (d.deploy_wordpress env domain path db_name db_user db_password site_title
        admin_user admin_password admin_email none (some (install_plugins.getD []))).1.success =
        false
    · simp [hb] at hrep
      subst hrep
      simp at he
    · rw [Bool.not_eq_false] at hb
      by_cases hpro : (truthyS elementor_pro_key && truthyS elementor_pro_local_path) = true
      · by_cases hpu : statusOk (d.upload_elementor_pro_zip env
            (elementor_pro_local_path.getD "")
            (path ++ "/wp-content/uploads/elementor-pro.zip")).1 = true
        · simp [hb, hpro, hpu, hu, hl, hinst, py_and, py_get_status] at hrep
          subst hrep
          simp only [Option.some.injEq] at he
          subst he
          exact ⟨rfl, rfl, by simp [Deployer.import_elementor_kit, hu]⟩
        · rw [Bool.not_eq_true] at hpu
          simp [hb, hpro, hpu, hu, hl, hinst, py_and, py_get_status] at hrep
          subst hrep
          simp only [Option.some.injEq] at he
          subst he
          exact ⟨rfl, rfl, by simp [Deployer.import_elementor_kit, hu]⟩
      · rw [Bool.not_eq_true] at hpro
        simp [hb, hpro, hu, hl, hinst, py_and, py_get_status] at hrep
        subst hrep
        simp only [Option.some.injEq] at he
        subst he
        exact ⟨rfl, rfl, by simp [Deployer.import_elementor_kit, hu]⟩
  · intro hinst hrep he
    unfold Deployer.deploy_wordpress_with_elementor at hrep
    by_cases hb : (d.deploy_wordpress env domain path db_name db_user db_password site_title
        admin_user admin_password admin_email none (some (install_plugins.getD []))).1.success =
        false
    · simp [hb] at hrep
      subst hrep
      simp at he
    · rw [Bool.not_eq_false] at hb
      simp [hb, hinst, py_and, py_get_status] at hrep
      repeat' split at hrep
      all_goals simp_all
      all_goals (subst hrep; simp only [Option.some.injEq] at he; subst he; rfl)

/-- Concrete instance of C6(a): a kit URL with no local file, everything
succeeding — no upload entry, one URL-import call. -/
theorem C6_witness :
    (((dEx.deploy_wordpress_with_elementor envAllOk "example.com" "/h" "wp" "wpu" "pw" "T"
        "adm" "apw" "a@b.c" none none (some "https://kits.example/k.zip") none none).1.bind
        ExtReport.elementor).map ElementorReport.kit_upload = some none) ∧
    (((dEx.deploy_wordpress_with_elementor envAllOk "example.com" "/h" "wp" "wpu" "pw" "T"
        "adm" "apw" "a@b.c" none none (some "https://kits.example/k.zip") none none).1.bind
        ExtReport.elementor).map ElementorReport.kit_import =
      some (some (dEx.import_elementor_kit envAllOk "/h"
        (some "https://kits.example/k.zip") none).1)) ∧
    dEx.import_elementor_kit envAllOk "/h" (some "https://kits.example/k.zip") none =
      dEx.make_api_request envAllOk "Execute" "exec"
        [("command", kit_import_command "/h" ((some "https://kits.example/k.zip").getD ""))] := by
  obtain ⟨rep, hrep⟩ :
      ∃ rep, (dEx.deploy_wordpress_with_elementor envAllOk "example.com" "/h" "wp" "wpu"
        "pw" "T" "adm" "apw" "a@b.c" none none (some "https://kits.example/k.zip") none
        none).1 = some rep := ⟨_, rfl⟩
  obtain ⟨e, he⟩ :
      ∃ e, ((dEx.deploy_wordpress_with_elementor envAllOk "example.com" "/h" "wp" "wpu"
        "pw" "T" "adm" "apw" "a@b.c" none none (some "https://kits.example/k.zip") none
        none).1.bind ExtReport.elementor) = some e := ⟨_, rfl⟩
  rw [hrep] at he
  simp only [Option.some_bind] at he
  have h := (C6_kit_url_import_and_gating dEx envAllOk "example.com" "/h" "wp" "wpu" "pw"
    "T" "adm" "apw" "a@b.c" none none (some "https://kits.example/k.zip") none none rep
    e).1 rfl rfl rfl hrep he
  rw [hrep]
  refine ⟨?_, ?_, h.2.2⟩
  · simp [he, h.1]
  · simp [he, h.2.1]

/-- Counterexample to C7 as stated: in an extended run whose base pipeline
fails at the very first step, the five Elementor steps were not attempted,
yet the returned report does not map them to null — the `results.update`
adding those keys never ran, so the keys are absent from the returned
dictionary (`elementor = none`), while the base step keys are present. -/
theorem C7_counterexample :
    ((dEx.deploy_wordpress_with_elementor envDbFail "example.com" "/h" "wp" "wpu" "pw" "T"
      "adm" "apw" "a@b.c" (some "KEY") (some "/local/pro.zip") none (some "/local/kit.zip")
      none).1.map ExtReport.elementor) = some none ∧
    ((dEx.deploy_wordpress_with_elementor envDbFail "example.com" "/h" "wp" "wpu" "pw" "T"
      "adm" "apw" "a@b.c" (some "KEY") (some "/local/pro.zip") none (some "/local/kit.zip")
      none).1.map (fun r => r.base.database_creation)) = some (some (errObj "db down")) :=
  ⟨rfl, rfl⟩

/-- C7 (amended): in every returned report each initialized step entry is null
exactly when the step was never attempted, but the five Elementor entries are
present only when the base pipeline succeeded — on base failure they are absent
altogether, not mapped to null. Concretely: the Elementor sub-dictionary is
absent iff the base run's success is false, and when present its entries are
null exactly under the code's guards: the free install entry is always set;
the Pro upload entry is null iff the Pro inputs were not both supplied; the
Pro install entry is null iff additionally the upload's status was falsy; the
kit upload entry is null iff no local kit file was supplied; the kit import
entry is null iff no kit source was supplied or the free install's status was
falsy. -/
theorem C7_report_entry_invariants (d : Deployer) (env : Env)
    (domain path db_name db_user db_password site_title admin_user admin_password admin_email :
      String)
    (elementor_pro_key elementor_pro_local_path kit_url kit_local_path : Option String)
    (install_plugins : Option (List String)) (rep : ExtReport) (e : ElementorReport) :
    ((d.deploy_wordpress_with_elementor env domain path db_name db_user db_password site_title
       admin_user admin_password admin_email elementor_pro_key elementor_pro_local_path kit_url
       kit_local_path install_plugins).1 = some rep →
     (rep.elementor = none ↔
      (d.deploy_wordpress env domain path db_name db_user db_password site_title admin_user
        admin_password admin_email none (some (install_plugins.getD []))).1.success = false)) ∧
    ((d.deploy_wordpress_with_elementor env domain path db_name db_user db_password site_title
       admin_user admin_password admin_email elementor_pro_key elementor_pro_local_path kit_url
       kit_local_path install_plugins).1 = some rep →
     rep.elementor = some e →
     e.elementor_installation = some (d.install_elementor env path).1 ∧
     (e.elementor_pro_upload = none ↔
       (truthyS elementor_pro_key && truthyS elementor_pro_local_path) = false) ∧
     (e.elementor_pro_installation = none ↔
       ((truthyS elementor_pro_key && truthyS elementor_pro_local_path) = false ∨
        statusOk (d.upload_elementor_pro_zip env (elementor_pro_local_path.getD "")
          (path ++ "/wp-content/uploads/elementor-pro.zip")).1 = false)) ∧
     (e.kit_upload = none ↔ truthyS kit_local_path = false) ∧
     (e.kit_import = none ↔
       ¬((truthyS kit_url || truthyS kit_local_path) = true ∧
         statusOk (d.install_elementor env path).1 = true))) := by
  have hsrv : truthyS (some (path ++ "/wp-content/uploads/elementor-kit.zip")) = true :=
    truthyS_some_append path "/wp-content/uploads/elementor-kit.zip" (by decide)
  constructor
  · intro hrep
    unfold Deployer.deploy_wordpress_with_elementor at hrep
    by_cases hb : (d.deploy_wordpress env domain path db_name db_user db_password site_title
        admin_user admin_password admin_email none (some (install_plugins.getD []))).1.success =
        false
    · simp [hb] at hrep
      subst hrep
      simp [hb]
    · rw [Bool.not_eq_false] at hb
      simp [hb, py_and, py_get_status, hsrv] at hrep
      repeat' split at hrep
      all_goals simp_all
      all_goals (subst hrep; simp [hb])
  · intro hrep he
    unfold Deployer.deploy_wordpress_with_elementor at hrep
    by_cases hb : (d.deploy_wordpress env domain path db_name db_user db_password site_title
        admin_user admin_password admin_email none (some (install_plugins.getD []))).1.success =
        false
    · simp [hb] at hrep
      subst hrep
      simp at he
    · rw [Bool.not_eq_false] at hb
      simp [hb, py_and, py_get_status, hsrv] at hrep
      repeat' split at hrep
      all_goals simp_all [py_and, py_get_status]
      all_goals subst hrep
      all_goals (simp only [Option.some.injEq] at he)
      all_goals subst he
      all_goals simp_all [py_and, py_get_status, truthyS]

/-- Concrete instance of C7 (amended): an all-success run with no optional
inputs — the Elementor keys are present, the unattempted entries are null. -/
theorem C7_witness :
    (((dEx.deploy_wordpress_with_elementor envAllOk "example.com" "/h" "wp" "wpu" "pw" "T"
        "adm" "apw" "a@b.c" none none none none none).1.bind ExtReport.elementor).map
        ElementorReport.elementor_pro_upload = some none) ∧
    (((dEx.deploy_wordpress_with_elementor envAllOk "example.com" "/h" "wp" "wpu" "pw" "T"
        "adm" "apw" "a@b.c" none none none none none).1.bind ExtReport.elementor).map
        ElementorReport.kit_import = some none) ∧
    ((dEx.deploy_wordpress_with_elementor envAllOk "example.com" "/h" "wp" "wpu" "pw" "T"
        "adm" "apw" "a@b.c" none none none none none).1.map ExtReport.elementor ≠
      some none) := by
  obtain ⟨rep, hrep⟩ :
      ∃ rep, (dEx.deploy_wordpress_with_elementor envAllOk "example.com" "/h" "wp" "wpu"
        "pw" "T" "adm" "apw" "a@b.c" none none none none none).1 = some rep := ⟨_, rfl⟩
  obtain ⟨e, he⟩ :
      ∃ e, ((dEx.deploy_wordpress_with_elementor envAllOk "example.com" "/h" "wp" "wpu"
        "pw" "T" "adm" "apw" "a@b.c" none none none none none).1.bind
        ExtReport.elementor) = some e := ⟨_, rfl⟩
  rw [hrep] at he
  simp only [Option.some_bind] at he
  have h2 := (C7_report_entry_invariants dEx envAllOk "example.com" "/h" "wp" "wpu" "pw"
    "T" "adm" "apw" "a@b.c" none none none none none rep e).2 hrep he
  refine ⟨?_, ?_, ?_⟩
  · rw [hrep]
    simp [he, h2.2.1.mpr rfl]
  · rw [hrep]
    simp [he, h2.2.2.2.2.mpr (by simp [truthyS])]
  · rw [hrep]
    simp [he]

/-- Counterexample to C1 as stated: a run of the extended pipeline in which
the free Elementor install (listed by the claim as a mandatory, halting step)
returns a failed result, yet the pipeline does not halt — the Pro upload step
is still executed and further remote calls are made (ten calls in total, the
failing free install being the eighth). -/
theorem C1_counterexample :
    (((dEx.deploy_wordpress_with_elementor envElemFail "example.com" "/h" "wp" "wpu" "pw" "T"
        "adm" "apw" "a@b.c" (some "KEY") (some "/local/pro.zip") none none none).1.bind
        ExtReport.elementor).map
        (fun e => e.elementor_installation.map statusOk) = some (some false)) ∧
    (((dEx.deploy_wordpress_with_elementor envElemFail "example.com" "/h" "wp" "wpu" "pw" "T"
        "adm" "apw" "a@b.c" (some "KEY") (some "/local/pro.zip") none none none).1.bind
        ExtReport.elementor).map
        (fun e => e.elementor_pro_upload.isSome) = some true) ∧
    ((dEx.deploy_wordpress_with_elementor envElemFail "example.com" "/h" "wp" "wpu" "pw" "T"
        "adm" "apw" "a@b.c" (some "KEY") (some "/local/pro.zip") none none none).2.length =
      10) :=
  ⟨rfl, rfl, rfl⟩

set_option maxHeartbeats 3200000 in
/-- C1 (amended): in both pipelines, if one of the seven base mandatory steps
(database create, user create, privilege grant, WordPress download, config
write, permission set, core install) records a falsy-status result, then no
later step executes — every later entry is null and the call log stops at the
failing call — and the report's success is false. In the extended pipeline a
failed free Elementor install does **not** halt the pipeline (the Pro and kit
steps may still run), but any returned report still has success = false. -/
theorem C1_mandatory_halt (d : Deployer) (env : Env)
    (domain path db_name db_user db_password site_title admin_user admin_password admin_email :
      String)
    (install_theme : Option String) (install_plugins : Option (List String))
    (elementor_pro_key elementor_pro_local_path kit_url kit_local_path : Option String)
    (ipl : Option (List String)) (rep : ExtReport)
    (bOut : BaseReport × List RemoteCall) (eOut : Option ExtReport × List RemoteCall)
    (hbOut : bOut = d.deploy_wordpress env domain path db_name db_user db_password site_title
      admin_user admin_password admin_email install_theme install_plugins)
    (heOut : eOut = d.deploy_wordpress_with_elementor env domain path db_name db_user
      db_password site_title admin_user admin_password admin_email elementor_pro_key
      elementor_pro_local_path kit_url kit_local_path ipl) :
    ((∀ r, bOut.1.database_creation = some r → statusOk r = false →
       bOut.1.database_user_creation = none ∧ bOut.1.user_privileges = none ∧
       bOut.1.wordpress_download = none ∧ bOut.1.wp_config_creation = none ∧
       bOut.1.permissions = none ∧ bOut.1.installation = none ∧
       bOut.1.theme_installation = none ∧ bOut.1.plugin_installation = none ∧
       bOut.1.success = false ∧ bOut.2.length = 1) ∧
     (∀ r, bOut.1.database_user_creation = some r → statusOk r = false →
       bOut.1.user_privileges = none ∧ bOut.1.wordpress_download = none ∧
       bOut.1.wp_config_creation = none ∧ bOut.1.permissions = none ∧
       bOut.1.installation = none ∧ bOut.1.theme_installation = none ∧
       bOut.1.plugin_installation = none ∧ bOut.1.success = false ∧ bOut.2.length = 2) ∧
     (∀ r, bOut.1.user_privileges = some r → statusOk r = false →
       bOut.1.wordpress_download = none ∧ bOut.1.wp_config_creation = none ∧
       bOut.1.permissions = none ∧ bOut.1.installation = none ∧
       bOut.1.theme_installation = none ∧ bOut.1.plugin_installation = none ∧
       bOut.1.success = false ∧ bOut.2.length = 3) ∧
     (∀ r, bOut.1.wordpress_download = some r → statusOk r = false →
       bOut.1.wp_config_creation = none ∧ bOut.1.permissions = none ∧
       bOut.1.installation = none ∧ bOut.1.theme_installation = none ∧
       bOut.1.plugin_installation = none ∧ bOut.1.success = false ∧ bOut.2.length = 4) ∧
     (∀ r, bOut.1.wp_config_creation = some r → statusOk r = false →
       bOut.1.permissions = none ∧ bOut.1.installation = none ∧
       bOut.1.theme_installation = none ∧ bOut.1.plugin_installation = none ∧
       bOut.1.success = false ∧ bOut.2.length = 5) ∧
     (∀ r, bOut.1.permissions = some r → statusOk r = false →
       bOut.1.installation = none ∧ bOut.1.theme_installation = none ∧
       bOut.1.plugin_installation = none ∧ bOut.1.success = false ∧ bOut.2.length = 6) ∧
     (∀ r, bOut.1.installation = some r → statusOk r = false →
       bOut.1.theme_installation = none ∧ bOut.1.plugin_installation = none ∧
       bOut.1.success = false ∧ bOut.2.length = 7)) ∧
    (eOut.1 = some rep →
     ((∀ r, rep.base.database_creation = some r → statusOk r = false →
        rep.elementor = none ∧ rep.base.database_user_creation = none ∧
        rep.base.user_privileges = none ∧ rep.base.wordpress_download = none ∧
        rep.base.wp_config_creation = none ∧ rep.base.permissions = none ∧
        rep.base.installation = none ∧ rep.base.success = false ∧ eOut.2.length = 1) ∧
      (∀ r, rep.base.database_user_creation = some r → statusOk r = false →
        rep.elementor = none ∧ rep.base.user_privileges = none ∧
        rep.base.wordpress_download = none ∧ rep.base.wp_config_creation = none ∧
        rep.base.permissions = none ∧ rep.base.installation = none ∧
        rep.base.success = false ∧ eOut.2.length = 2) ∧
      (∀ r, rep.base.user_privileges = some r → statusOk r = false →
        rep.elementor = none ∧ rep.base.wordpress_download = none ∧
        rep.base.wp_config_creation = none ∧ rep.base.permissions = none ∧
        rep.base.installation = none ∧ rep.base.success = false ∧ eOut.2.length = 3) ∧
      (∀ r, rep.base.wordpress_download = some r → statusOk r = false →
        rep.elementor = none ∧ rep.base.wp_config_creation = none ∧
        rep.base.permissions = none ∧ rep.base.installation = none ∧
        rep.base.success = false ∧ eOut.2.length = 4) ∧
      (∀ r, rep.base.wp_config_creation = some r → statusOk r = false →
        rep.elementor = none ∧ rep.base.permissions = none ∧
        rep.base.installation = none ∧ rep.base.success = false ∧ eOut.2.length = 5) ∧
      (∀ r, rep.base.permissions = some r → statusOk r = false →
        rep.elementor = none ∧ rep.base.installation = none ∧
        rep.base.success = false ∧ eOut.2.length = 6) ∧
      (∀ r, rep.base.installation = some r → statusOk r = false →
        rep.elementor = none ∧ rep.base.success = false ∧ eOut.2.length = 7))) ∧
    (∀ e r, eOut.1 = some rep → rep.elementor = some e →
      e.elementor_installation = some r → statusOk r = false →
      rep.base.success = false) := by
  subst hbOut
  subst heOut
  refine ⟨?_, ?_, ?_⟩
  · by_cases h1 : statusOk (d.create_database env db_name).1 = false
    · simp_all [Deployer.deploy_wordpress, Deployer.create_database, Deployer.create_db_user, Deployer.assign_user_to_db, Deployer.download_wordpress, Deployer.create_wp_config, Deployer.set_file_permissions, Deployer.run_wp_installation, Deployer.make_api_request]
    · rw [Bool.not_eq_false] at h1
      by_cases h2 : statusOk (d.create_db_user env db_user db_password).1 = false
      · simp_all [Deployer.deploy_wordpress, Deployer.create_database, Deployer.create_db_user, Deployer.assign_user_to_db, Deployer.download_wordpress, Deployer.create_wp_config, Deployer.set_file_permissions, Deployer.run_wp_installation, Deployer.make_api_request]
      · rw [Bool.not_eq_false] at h2
        by_cases h3 : statusOk (d.assign_user_to_db env db_name db_user).1 = false
        · simp_all [Deployer.deploy_wordpress, Deployer.create_database, Deployer.create_db_user, Deployer.assign_user_to_db, Deployer.download_wordpress, Deployer.create_wp_config, Deployer.set_file_permissions, Deployer.run_wp_installation, Deployer.make_api_request]
        · rw [Bool.not_eq_false] at h3
          by_cases h4 : statusOk (d.download_wordpress env path).1 = false
          · simp_all [Deployer.deploy_wordpress, Deployer.create_database, Deployer.create_db_user, Deployer.assign_user_to_db, Deployer.download_wordpress, Deployer.create_wp_config, Deployer.set_file_permissions, Deployer.run_wp_installation, Deployer.make_api_request]
          · rw [Bool.not_eq_false] at h4
            by_cases h5 : statusOk (d.create_wp_config env path db_name db_user db_password).1 = false
            · simp_all [Deployer.deploy_wordpress, Deployer.create_database, Deployer.create_db_user, Deployer.assign_user_to_db, Deployer.download_wordpress, Deployer.create_wp_config, Deployer.set_file_permissions, Deployer.run_wp_installation, Deployer.make_api_request]
            · rw [Bool.not_eq_false] at h5
              by_cases h6 : statusOk (d.set_file_permissions env path).1 = false
              · simp_all [Deployer.deploy_wordpress, Deployer.create_database, Deployer.create_db_user, Deployer.assign_user_to_db, Deployer.download_wordpress, Deployer.create_wp_config, Deployer.set_file_permissions, Deployer.run_wp_installation, Deployer.make_api_request]
              · rw [Bool.not_eq_false] at h6
                by_cases h7 : statusOk (d.run_wp_installation env path domain site_title admin_user admin_password admin_email).1 = false
                · simp_all [Deployer.deploy_wordpress, Deployer.create_database, Deployer.create_db_user, Deployer.assign_user_to_db, Deployer.download_wordpress, Deployer.create_wp_config, Deployer.set_file_permissions, Deployer.run_wp_installation, Deployer.make_api_request]
                · rw [Bool.not_eq_false] at h7
                  simp_all [Deployer.deploy_wordpress, Deployer.create_database, Deployer.create_db_user, Deployer.assign_user_to_db, Deployer.download_wordpress, Deployer.create_wp_config, Deployer.set_file_permissions, Deployer.run_wp_installation, Deployer.make_api_request]
  · intro hrep
    unfold Deployer.deploy_wordpress_with_elementor at hrep
    by_cases h1 : statusOk (d.create_database env db_name).1 = false
    · have hsucc : (d.deploy_wordpress env domain path db_name db_user db_password site_title
          admin_user admin_password admin_email none (some (ipl.getD []))).1.success = false := by
        clear hrep
        simp_all [Deployer.deploy_wordpress, Deployer.create_database, Deployer.create_db_user, Deployer.assign_user_to_db, Deployer.download_wordpress, Deployer.create_wp_config, Deployer.set_file_permissions, Deployer.run_wp_installation, Deployer.make_api_request]
      simp [hsucc] at hrep
      subst hrep
      simp_all [Deployer.deploy_wordpress_with_elementor, Deployer.deploy_wordpress, Deployer.create_database, Deployer.create_db_user, Deployer.assign_user_to_db, Deployer.download_wordpress, Deployer.create_wp_config, Deployer.set_file_permissions, Deployer.run_wp_installation, Deployer.make_api_request]
    · rw [Bool.not_eq_false] at h1
      by_cases h2 : statusOk (d.create_db_user env db_user db_password).1 = false
      · have hsucc : (d.deploy_wordpress env domain path db_name db_user db_password site_title
            admin_user admin_password admin_email none (some (ipl.getD []))).1.success = false := by
          clear hrep
          simp_all [Deployer.deploy_wordpress, Deployer.create_database, Deployer.create_db_user, Deployer.assign_user_to_db, Deployer.download_wordpress, Deployer.create_wp_config, Deployer.set_file_permissions, Deployer.run_wp_installation, Deployer.make_api_request]
        simp [hsucc] at hrep
        subst hrep
        simp_all [Deployer.deploy_wordpress_with_elementor, Deployer.deploy_wordpress, Deployer.create_database, Deployer.create_db_user, Deployer.assign_user_to_db, Deployer.download_wordpress, Deployer.create_wp_config, Deployer.set_file_permissions, Deployer.run_wp_installation, Deployer.make_api_request]
      · rw [Bool.not_eq_false] at h2
        by_cases h3 : statusOk (d.assign_user_to_db env db_name db_user).1 = false
        · have hsucc : (d.deploy_wordpress env domain path db_name db_user db_password site_title
              admin_user admin_password admin_email none (some (ipl.getD []))).1.success = false := by
            clear hrep
            simp_all [Deployer.deploy_wordpress, Deployer.create_database, Deployer.create_db_user, Deployer.assign_user_to_db, Deployer.download_wordpress, Deployer.create_wp_config, Deployer.set_file_permissions, Deployer.run_wp_installation, Deployer.make_api_request]
          simp [hsucc] at hrep
          subst hrep
          simp_all [Deployer.deploy_wordpress_with_elementor, Deployer.deploy_wordpress, Deployer.create_database, Deployer.create_db_user, Deployer.assign_user_to_db, Deployer.download_wordpress, Deployer.create_wp_config, Deployer.set_file_permissions, Deployer.run_wp_installation, Deployer.make_api_request]
        · rw [Bool.not_eq_false] at h3
          by_cases h4 : statusOk (d.download_wordpress env path).1 = false
          · have hsucc : (d.deploy_wordpress env domain path db_name db_user db_password site_title
                admin_user admin_password admin_email none (some (ipl.getD []))).1.success = false := by
              clear hrep
              simp_all [Deployer.deploy_wordpress, Deployer.create_database, Deployer.create_db_user, Deployer.assign_user_to_db, Deployer.download_wordpress, Deployer.create_wp_config, Deployer.set_file_permissions, Deployer.run_wp_installation, Deployer.make_api_request]
            simp [hsucc] at hrep
            subst hrep
            simp_all [Deployer.deploy_wordpress_with_elementor, Deployer.deploy_wordpress, Deployer.create_database, Deployer.create_db_user, Deployer.assign_user_to_db, Deployer.download_wordpress, Deployer.create_wp_config, Deployer.set_file_permissions, Deployer.run_wp_installation, Deployer.make_api_request]
          · rw [Bool.not_eq_false] at h4
            by_cases h5 : statusOk (d.create_wp_config env path db_name db_user db_password).1 = false
            · have hsucc : (d.deploy_wordpress env domain path db_name db_user db_password site_title
                  admin_user admin_password admin_email none (some (ipl.getD []))).1.success = false := by
                clear hrep
                simp_all [Deployer.deploy_wordpress, Deployer.create_database, Deployer.create_db_user, Deployer.assign_user_to_db, Deployer.download_wordpress, Deployer.create_wp_config, Deployer.set_file_permissions, Deployer.run_wp_installation, Deployer.make_api_request]
              simp [hsucc] at hrep
              subst hrep
              simp_all [Deployer.deploy_wordpress_with_elementor, Deployer.deploy_wordpress, Deployer.create_database, Deployer.create_db_user, Deployer.assign_user_to_db, Deployer.download_wordpress, Deployer.create_wp_config, Deployer.set_file_permissions, Deployer.run_wp_installation, Deployer.make_api_request]
            · rw [Bool.not_eq_false] at h5
              by_cases h6 : statusOk (d.set_file_permissions env path).1 = false
              · have hsucc : (d.deploy_wordpress env domain path db_name db_user db_password site_title
                    admin_user admin_password admin_email none (some (ipl.getD []))).1.success = false := by
                  clear hrep
                  simp_all [Deployer.deploy_wordpress, Deployer.create_database, Deployer.create_db_user, Deployer.assign_user_to_db, Deployer.download_wordpress, Deployer.create_wp_config, Deployer.set_file_permissions, Deployer.run_wp_installation, Deployer.make_api_request]
                simp [hsucc] at hrep
                subst hrep
                simp_all [Deployer.deploy_wordpress_with_elementor, Deployer.deploy_wordpress, Deployer.create_database, Deployer.create_db_user, Deployer.assign_user_to_db, Deployer.download_wordpress, Deployer.create_wp_config, Deployer.set_file_permissions, Deployer.run_wp_installation, Deployer.make_api_request]
              · rw [Bool.not_eq_false] at h6
                by_cases h7 : statusOk (d.run_wp_installation env path domain site_title admin_user admin_password admin_email).1 = false
                · have hsucc : (d.deploy_wordpress env domain path db_name db_user db_password site_title
                      admin_user admin_password admin_email none (some (ipl.getD []))).1.success = false := by
                    clear hrep
                    simp_all [Deployer.deploy_wordpress, Deployer.create_database, Deployer.create_db_user, Deployer.assign_user_to_db, Deployer.download_wordpress, Deployer.create_wp_config, Deployer.set_file_permissions, Deployer.run_wp_installation, Deployer.make_api_request]
                  simp [hsucc] at hrep
                  subst hrep
                  simp_all [Deployer.deploy_wordpress_with_elementor, Deployer.deploy_wordpress, Deployer.create_database, Deployer.create_db_user, Deployer.assign_user_to_db, Deployer.download_wordpress, Deployer.create_wp_config, Deployer.set_file_permissions, Deployer.run_wp_installation, Deployer.make_api_request]
                · rw [Bool.not_eq_false] at h7
                  have hsucc : (d.deploy_wordpress env domain path db_name db_user db_password site_title
                      admin_user admin_password admin_email none (some (ipl.getD []))).1.success = true := by
                    clear hrep
                    simp_all [Deployer.deploy_wordpress, Deployer.create_database, Deployer.create_db_user, Deployer.assign_user_to_db, Deployer.download_wordpress, Deployer.create_wp_config, Deployer.set_file_permissions, Deployer.run_wp_installation, Deployer.make_api_request]
                  simp [hsucc, py_and, py_get_status] at hrep
                  repeat' split at hrep
                  all_goals simp_all
                  all_goals subst hrep
                  all_goals simp_all [Deployer.deploy_wordpress_with_elementor, Deployer.deploy_wordpress, Deployer.create_database, Deployer.create_db_user, Deployer.assign_user_to_db, Deployer.download_wordpress, Deployer.create_wp_config, Deployer.set_file_permissions, Deployer.run_wp_installation, Deployer.make_api_request, py_and, py_get_status]
  · intro e r hrep he hi hs
    unfold Deployer.deploy_wordpress_with_elementor at hrep
    by_cases hb : (d.deploy_wordpress env domain path db_name db_user db_password site_title
        admin_user admin_password admin_email none (some (ipl.getD []))).1.success = false
    · simp [hb] at hrep
      subst hrep
      simp at he
    · rw [Bool.not_eq_false] at hb
      by_cases hks : statusOk (d.upload_kit_file env (kit_local_path.getD "")
          (path ++ "/wp-content/uploads/elementor-kit.zip")).1 = true
      all_goals (try rw [Bool.not_eq_true] at hks)
      all_goals simp [hb, hks, py_and, py_get_status] at hrep
      all_goals (repeat' split at hrep)
      all_goals simp_all [py_and, py_get_status]
      all_goals subst hrep
      all_goals (simp only [Option.some.injEq] at he; subst he)
      all_goals simp_all [py_and, py_get_status]

/-- Concrete instance of C1 (amended): database creation fails in both
pipelines — every later entry is null, success is false, exactly one call was
made, and the extended report carries no Elementor keys. -/
theorem C1_witness :
    (dEx.deploy_wordpress envDbFail "example.com" "/h" "wp" "wpu" "pw" "T" "adm" "apw"
      "a@b.c" none none).1.database_user_creation = none ∧
    (dEx.deploy_wordpress envDbFail "example.com" "/h" "wp" "wpu" "pw" "T" "adm" "apw"
      "a@b.c" none none).1.success = false ∧
    (dEx.deploy_wordpress envDbFail "example.com" "/h" "wp" "wpu" "pw" "T" "adm" "apw"
      "a@b.c" none none).2.length = 1 ∧
    ((dEx.deploy_wordpress_with_elementor envDbFail "example.com" "/h" "wp" "wpu" "pw" "T"
      "adm" "apw" "a@b.c" none none none none none).1.map ExtReport.elementor = some none) ∧
    ((dEx.deploy_wordpress_with_elementor envDbFail "example.com" "/h" "wp" "wpu" "pw" "T"
      "adm" "apw" "a@b.c" none none none none none).1.map (fun r => r.base.success) =
      some false) ∧
    (dEx.deploy_wordpress_with_elementor envDbFail "example.com" "/h" "wp" "wpu" "pw" "T"
      "adm" "apw" "a@b.c" none none none none none).2.length = 1 := by
  obtain ⟨rep, hrep⟩ :
      ∃ rep, (dEx.deploy_wordpress_with_elementor envDbFail "example.com" "/h" "wp" "wpu"
        "pw" "T" "adm" "apw" "a@b.c" none none none none none).1 = some rep := ⟨_, rfl⟩
  have h := C1_mandatory_halt dEx envDbFail "example.com" "/h" "wp" "wpu" "pw" "T" "adm"
    "apw" "a@b.c" none none none none none none none rep _ _ rfl rfl
  have hA := h.1.1 (errObj "db down") rfl rfl
  have hdb0 : (some rep).map (fun x => x.base.database_creation) =
      some (some (errObj "db down")) := by
    rw [← hrep]
    rfl
  have hdb : rep.base.database_creation = some (errObj "db down") := by
    simpa using hdb0
  have hB := (h.2.1 hrep).1 (errObj "db down") hdb rfl
  refine ⟨hA.1, hA.2.2.2.2.2.2.2.2.1, hA.2.2.2.2.2.2.2.2.2, ?_, ?_, ?_⟩
  · rw [hrep]
    simp [hB.1]
  · rw [hrep]
    simp [hB.2.2.2.2.2.2.2.1]
  · exact hB.2.2.2.2.2.2.2.2
